import Mathlib

/-!
Shallow embedding of `src/Modelo/python/hand_tracker.py` (class `HandTracker`):
the capture-process-transmit loop, its dual-channel UDP transport, the
landmark flattening, the ONNX classifier adapter, the preview rate limiter
and size bound, and the teardown routine.  Machine floats of the source are
modelled as rationals; external collaborators (camera, MediaPipe, cv2 JPEG
encoder, ONNX runtime, the OS socket) appear as explicit per-cycle inputs or
function parameters, while every branch and state update of the Python code
is translated directly.
-/

/-- A pixel of a BGR frame: three 8-bit channels. -/
structure Pixel where
  b : Nat
  g : Nat
  r : Nat
deriving DecidableEq

/-- A frame as delivered by `cap.read()`: rows of pixels. -/
abbrev Frame := List (List Pixel)

/-- Translation of `cv2.flip(frame, 1)` (line 412): flip around the vertical
axis, i.e. reverse every row of the image. -/
def flipHorizontal (f : Frame) : Frame := f.map List.reverse

/-- One MediaPipe landmark: normalized x, y, z coordinates. -/
structure Landmark where
  x : ℚ
  y : ℚ
  z : ℚ
deriving DecidableEq

/-- Translation of `HandTracker.extract_landmarks` (lines 185-200): walk the
landmark list in order, appending x, y, z of each point to a flat list. -/
def extract_landmarks : List Landmark → List ℚ
  | [] => []
  | lm :: rest => lm.x :: lm.y :: lm.z :: extract_landmarks rest

/-- The probabilities entry `outputs[1][0]` of the ONNX model when it is
present and not None: either a dict (modelled as an association list from
label to probability) or some non-dict value. -/
inductive ProbOutput where
  | dict (probs : List (String × ℚ))
  | nonDict
deriving DecidableEq

/-- A successful run of the ONNX session: `outputs[0][0]` is the label;
`probs` is `none` when `len(outputs) <= 1` or `outputs[1]` is None, and
`some` of the value of `outputs[1][0]` otherwise. -/
structure EngineOutput where
  label : String
  probs : Option ProbOutput

/-- The inference engine `self.onnx_session`: `none` when loading failed in
`_init_onnx` (lines 154-159); otherwise a function from the input vector to
either a raised exception (modelled by its message) or an output. -/
abbrev Engine := Option (List ℚ → Except String EngineOutput)

/-- Maximum of a nonempty list of rationals, as Python `max` over
`probabilities.values()`; defined as 0 on the empty list, which the code
never reaches because of the `if probabilities` truthiness guard. -/
def listMax : List ℚ → ℚ
  | [] => 0
  | [v] => v
  | v :: w :: rest => max v (listMax (w :: rest))

/-- Confidence computation of `predict_letter` (lines 243-251): a dict gives
the max of its values when nonempty and 0.0 when empty; a present non-dict
probabilities value, or an absent one, gives 1.0. -/
def confidenceOf : Option ProbOutput → ℚ
  | some (ProbOutput.dict d) => if d.isEmpty then 0 else listMax (d.map Prod.snd)
  | some ProbOutput.nonDict => 1
  | none => 1

/-- Translation of `HandTracker.predict_letter` (lines 217-257): return
("?", 0.0) when the session is unavailable or the engine raises; otherwise
the label together with the confidence derived from the probability output. -/
def predict_letter (session : Engine) (landmarks : List ℚ) : String × ℚ :=
  match session with
  | none => ("?", 0)
  | some f =>
    match f landmarks with
    | Except.error _ => ("?", 0)
    | Except.ok out => (out.label, confidenceOf out.probs)

/-- The JSON telemetry message built in `send_to_unity` (lines 270-277). -/
structure TelemetryMessage where
  hand_detected : Bool
  landmarks : List ℚ
  letter : String
  confidence : ℚ
  timestamp : ℚ
deriving DecidableEq

/-- Translation of the message construction in `HandTracker.send_to_unity`
(lines 270-277): the landmarks field is the given list when a hand was
detected and the empty list otherwise. -/
def send_to_unity (landmarks : List ℚ) (letter : String) (confidence : ℚ)
    (hand_detected : Bool) (now : ℚ) : TelemetryMessage :=
  { hand_detected := hand_detected
    landmarks := if hand_detected then landmarks else []
    letter := letter
    confidence := confidence
    timestamp := now }

/-- The constructor configuration of `HandTracker.__init__` (lines 66-97):
the fields that stay constant during a run.  `mirror_mode` is the initial
value of the mutable mirror flag. -/
structure TrackerConfig where
  udp_ip : String
  udp_port : Nat
  udp_video_port : Option Nat
  video_fps : ℚ
  video_width : Nat
  video_jpeg_quality : Int
  camera_id : Nat
  mirror_mode : Bool
  show_window : Bool
deriving DecidableEq

/-- The default constructor arguments of `HandTracker` (lines 66-76) with the
module constants of lines 35-39. -/
def defaultConfig : TrackerConfig :=
  { udp_ip := "127.0.0.1"
    udp_port := 5005
    udp_video_port := some 5006
    video_fps := 10
    video_width := 320
    video_jpeg_quality := 55
    camera_id := 0
    mirror_mode := true
    show_window := true }

/-- The handle of the single UDP socket created by `_init_socket`
(lines 161-165) and stored in `self.sock`. -/
def theSock : Nat := 0

/-- The sockets created during initialization: `_init_socket` is the only
socket-creation site in the class and creates exactly one datagram socket. -/
def socketsCreated : List Nat := [theSock]

/-- A datagram routing: which socket handle a send goes through and the
destination it is addressed to. -/
structure Datagram where
  sock : Nat
  ip : String
  port : Nat
deriving DecidableEq

/-- Routing of the telemetry send in `send_to_unity` (line 282):
`self.sock.sendto(message, (self.udp_ip, self.udp_port))`. -/
def telemetryRoute (cfg : TrackerConfig) : Datagram :=
  { sock := theSock, ip := cfg.udp_ip, port := cfg.udp_port }

/-- Routing of the preview send in `_send_video_frame_to_unity` (line 316):
`self.sock.sendto(payload, (self.udp_ip, self.udp_video_port))`, available
only when the video port is configured. -/
def previewRoute (cfg : TrackerConfig) : Option Datagram :=
  cfg.udp_video_port.map fun p => { sock := theSock, ip := cfg.udp_ip, port := p }

/-- Outcome of one call to `_send_video_frame_to_unity` (lines 286-320),
one constructor per return point of the Python function. -/
inductive VideoOutcome where
  | disabled
  | rateLimited
  | encodeFailed
  | oversized
  | sendFailed
  | sent (payload : List Nat)
deriving DecidableEq

/-- Translation of `HandTracker._send_video_frame_to_unity` (lines 286-320).
Inputs from the outside world: `now` is `time.time()`, `encodeOk` whether
`cv2.imencode` succeeded, `payload` its bytes, and `sendOk` whether
`sock.sendto` returned without raising.  Returns the new value of
`self._last_video_send_time` together with the outcome; the timestamp is
advanced exactly when the send succeeded (line 317 runs only after a
successful line 316, and the `except` clause skips it). -/
def sendVideoFrame (cfg : TrackerConfig) (last now : ℚ) (encodeOk : Bool)
    (payload : List Nat) (sendOk : Bool) : ℚ × VideoOutcome :=
  match cfg.udp_video_port with
  | none => (last, VideoOutcome.disabled)
  | some _ =>
    if 0 < cfg.video_fps ∧ now - last < 1 / cfg.video_fps then
      (last, VideoOutcome.rateLimited)
    else if encodeOk = false then
      (last, VideoOutcome.encodeFailed)
    else if 65000 < payload.length then
      (last, VideoOutcome.oversized)
    else if sendOk then
      (now, VideoOutcome.sent payload)
    else
      (last, VideoOutcome.sendFailed)

/-- The mutable per-run state of the tracker: `self.is_running`,
`self.mirror_mode`, `self._last_video_send_time`, `self.fps`,
`self.current_letter`, `self.confidence` (lines 96-106), plus the loop-local
FPS accounting `prev_time` and `frame_count` of lines 399-400. -/
structure TrackerState where
  is_running : Bool
  mirror_mode : Bool
  last_video_send_time : ℚ
  fps : ℚ
  current_letter : String
  confidence : ℚ
  prev_time : ℚ
  frame_count : Nat
deriving DecidableEq

/-- State as left by `__init__` and the prologue of `run` (lines 398-400):
mirror flag from the configuration, `prev_time` from the `time.time()` call
before the loop. -/
def initialState (cfg : TrackerConfig) (startTime : ℚ) : TrackerState :=
  { is_running := false
    mirror_mode := cfg.mirror_mode
    last_video_send_time := 0
    fps := 0
    current_letter := ""
    confidence := 0
    prev_time := startTime
    frame_count := 0 }

/-- Mirror application at the top of each cycle (lines 411-412):
`if self.mirror_mode: frame = cv2.flip(frame, 1)`. -/
def mirroredFrame (st : TrackerState) (f : Frame) : Frame :=
  if st.mirror_mode then flipHorizontal f else f

/-- Per-cycle detection outcome, the local variables of lines 421-425
after the `if results.multi_hand_landmarks` block. -/
structure Detection where
  hand_detected : Bool
  landmarks : List ℚ
  letter : String
  confidence : ℚ
  draw : Option (List Landmark)

/-- Translation of lines 421-440: when MediaPipe reports a hand (the input
is the first element of `multi_hand_landmarks`, or `none`), extract the flat
landmark list and classify it; otherwise leave the cycle defaults. -/
def detect (session : Engine) : Option (List Landmark) → Detection
  | some hand =>
    let lms := extract_landmarks hand
    let lc := predict_letter session lms
    { hand_detected := true, landmarks := lms, letter := lc.1, confidence := lc.2
      draw := some hand }
  | none =>
    { hand_detected := false, landmarks := [], letter := "", confidence := 0
      draw := none }

/-- Lines 439-440: `self.current_letter` and `self.confidence` are updated
only inside the detection branch. -/
def applyDetect (st : TrackerState) (d : Detection) : TrackerState :=
  if d.hand_detected then
    { st with current_letter := d.letter, confidence := d.confidence }
  else st

/-- The rolling-FPS update of lines 446-451: increment the frame count and,
once at least one second has elapsed, recompute `self.fps` and reset the
window. -/
def fpsUpdate (st : TrackerState) (now : ℚ) : TrackerState :=
  let fc : Nat := st.frame_count + 1
  if 1 ≤ now - st.prev_time then
    { st with fps := (fc : ℚ) / (now - st.prev_time), frame_count := 0, prev_time := now }
  else
    { st with frame_count := fc }

/-- Signature of `draw_overlay` (lines 322-380): it builds the annotated
display frame from the processed frame, the landmarks to draw, the predicted
letter and confidence, and `self.fps`.  Its body is pure cv2 drawing, so it
enters the model as a function parameter. -/
abbrev DrawOverlay := Frame → Option (List Landmark) → String → ℚ → ℚ → Frame

/-- The external inputs consumed by one iteration of the `while` loop:
the frame from `cap.read()` (`none` when `ret` is false), the MediaPipe
result, the masked `cv2.waitKey(1) & 0xFF` value, the `time.time()` values
observed at the telemetry, FPS and video call sites, and the JPEG-encoder
and socket outcomes of the preview path. -/
structure CycleInput where
  frameRead : Option Frame
  handResult : Option (List Landmark)
  key : Nat
  now_send : ℚ
  now_fps : ℚ
  now_video : ℚ
  encodeOk : Bool
  payload : List Nat
  sendOk : Bool

/-- Everything one loop iteration produces: the new state, the telemetry
message handed to `send_to_unity` (`none` when the frame read failed and the
loop did `continue`), the frame handed to `_send_video_frame_to_unity`, the
preview outcome, and whether `break` was executed. -/
structure CycleOutput where
  state : TrackerState
  telemetry : Option TelemetryMessage
  previewFrame : Option Frame
  videoOutcome : Option VideoOutcome
  stop : Bool

/-- Body of one loop iteration after a successful frame read
(lines 410-472).  Note the branch structure of lines 453-472 exactly as in
the source: when `self.show_window` is true, the overlay frame is shown and
streamed and no key handling runs; the `cv2.waitKey` polling together with
the q/m handlers lives in the `else` branch only. -/
def cycleBody (cfg : TrackerConfig) (session : Engine) (dO : DrawOverlay)
    (st : TrackerState) (inp : CycleInput) (frame0 : Frame) : CycleOutput :=
  let frame := mirroredFrame st frame0
  let d := detect session inp.handResult
  let msg := send_to_unity d.landmarks d.letter d.confidence d.hand_detected inp.now_send
  let st1 := fpsUpdate (applyDetect st d) inp.now_fps
  let vr := sendVideoFrame cfg st1.last_video_send_time inp.now_video inp.encodeOk
    inp.payload inp.sendOk
  let st2 := { st1 with last_video_send_time := vr.1 }
  if cfg.show_window then
    { state := st2, telemetry := some msg
      previewFrame := some (dO frame d.draw d.letter d.confidence st1.fps)
      videoOutcome := some vr.2, stop := false }
  else if inp.key = 113 then
    { state := st2, telemetry := some msg, previewFrame := some frame
      videoOutcome := some vr.2, stop := true }
  else if inp.key = 109 then
    { state := { st2 with mirror_mode := !st2.mirror_mode }, telemetry := some msg
      previewFrame := some frame, videoOutcome := some vr.2, stop := false }
  else
    { state := st2, telemetry := some msg, previewFrame := some frame
      videoOutcome := some vr.2, stop := false }

/-- One full iteration of the `while self.is_running` body (lines 403-472):
a failed frame read logs and `continue`s (lines 406-408), otherwise the
cycle body runs. -/
def runCycle (cfg : TrackerConfig) (session : Engine) (dO : DrawOverlay)
    (st : TrackerState) (inp : CycleInput) : CycleOutput :=
  match inp.frameRead with
  | none =>
    { state := st, telemetry := none, previewFrame := none
      videoOutcome := none, stop := false }
  | some frame0 => cycleBody cfg session dO st inp frame0

/-- The resources acquired by `__init__`: each is `none` when the attribute
is falsy and `some open?` when the handle object exists.  `__init__` always
creates the MediaPipe session and the socket; the capture handle always
exists but may be unopened. -/
structure Resources where
  cap : Option Bool
  hands : Option Bool
  sock : Option Bool
deriving DecidableEq

/-- Resources as left by `_init_mediapipe`, `_init_socket` and
`_init_camera` (lines 108-183): hands and sock acquired, the capture handle
present and open iff the camera opened. -/
def initResources (capOpened : Bool) : Resources :=
  { cap := some capOpened, hands := some true, sock := some true }

/-- Translation of `HandTracker.cleanup` (lines 479-492): release the
capture handle, the MediaPipe session and the socket, each guarded by the
truthiness of the attribute, so a missing resource is tolerated. -/
def cleanup (r : Resources) : Resources :=
  { cap := r.cap.map fun _ => false
    hands := r.hands.map fun _ => false
    sock := r.sock.map fun _ => false }

/-- One scheduling step of the loop as seen from outside: either the
iteration runs with the given inputs, or a `KeyboardInterrupt` arrives
during it. -/
inductive CycleEvent where
  | normal (i : CycleInput)
  | interrupt

/-- The `while self.is_running` loop over a finite trace of events.
Returns the final state and whether the loop exited within the trace
(by the `while` condition, by `break`, or by `KeyboardInterrupt`); `false`
means the trace ran out with the loop still running. -/
def loopGo (cfg : TrackerConfig) (session : Engine) (dO : DrawOverlay) :
    TrackerState → List CycleEvent → TrackerState × Bool
  | st, [] => (st, false)
  | st, CycleEvent.interrupt :: _ => (st, true)
  | st, CycleEvent.normal i :: rest =>
    if st.is_running = false then (st, true)
    else
      let out := runCycle cfg session dO st i
      if out.stop then (out.state, true)
      else loopGo cfg session dO out.state rest

/-- Outcome of a whole call to `HandTracker.run`. -/
structure RunResult where
  enteredRunning : Bool
  exited : Bool
  cleanupCalled : Bool
  finalState : TrackerState
  finalRes : Resources

/-- Translation of `HandTracker.run` (lines 382-477): when the camera is not
opened, log and return before the `try` block — without entering Running and
without calling `cleanup` (lines 386-388).  Otherwise set `is_running`,
execute the loop, and — when the loop exits within the trace, whether by
`break` or by `KeyboardInterrupt` — run the `finally` clause, which calls
`cleanup` (lines 476-477). -/
def run (cfg : TrackerConfig) (session : Engine) (dO : DrawOverlay)
    (capOpened : Bool) (startTime : ℚ) (events : List CycleEvent) : RunResult :=
  if capOpened = false then
    { enteredRunning := false, exited := true, cleanupCalled := false
      finalState := initialState cfg startTime, finalRes := initResources capOpened }
  else
    let r := loopGo cfg session dO
      { initialState cfg startTime with is_running := true } events
    { enteredRunning := true, exited := r.2, cleanupCalled := r.2
      finalState := if r.2 then { r.1 with is_running := false } else r.1
      finalRes := if r.2 then cleanup (initResources capOpened)
        else initResources capOpened }

/-- A concrete overlay function for witnesses: returns the frame unchanged. -/
def dOverlayId : DrawOverlay := fun f _ _ _ _ => f

/-- A concrete one-row frame for witnesses. -/
def frame1 : Frame := [[⟨1, 2, 3⟩, ⟨4, 5, 6⟩]]

/-- A concrete tracker state for witnesses: the state right after
initialization with the default configuration. -/
def stInit : TrackerState := initialState defaultConfig 0

/-- A concrete cycle input for witnesses: successful frame read, no hand,
pending key 113 (the letter q). -/
def inpQ : CycleInput :=
  { frameRead := some frame1, handResult := none, key := 113
    now_send := 0, now_fps := 0, now_video := 0
    encodeOk := true, payload := [], sendOk := true }

/-- Same cycle input with pending key 109 (the letter m). -/
def inpM : CycleInput := { inpQ with key := 109 }

/-- The default configuration with the debug window disabled
(`show_window=False`, the `--no-window` path). -/
def cfgNoShow : TrackerConfig := { defaultConfig with show_window := false }

/-- A concrete inference engine that raises on every input. -/
def failEngine : List ℚ → Except String EngineOutput :=
  fun _ => Except.error "boom"

/-- A concrete inference engine that succeeds with label A and a one-entry
probability dict. -/
def okEngine : List ℚ → Except String EngineOutput :=
  fun _ => Except.ok { label := "A", probs := some (ProbOutput.dict [("A", 92/100)]) }

/-- Helper: reduce `runCycle` to `cycleBody` when the frame read succeeded. -/
theorem runCycle_eq_cycleBody (cfg : TrackerConfig) (session : Engine) (dO : DrawOverlay)
    (st : TrackerState) (inp : CycleInput) (frame0 : Frame)
    (hf : inp.frameRead = some frame0) :
    runCycle cfg session dO st inp = cycleBody cfg session dO st inp frame0 := by
  unfold runCycle
  rw [hf]

/-- Helper: reduce `sendVideoFrame` to its if-cascade when the video port is
configured. -/
theorem sendVideoFrame_some (cfg : TrackerConfig) (last now : ℚ) (encodeOk : Bool)
    (payload : List Nat) (sendOk : Bool) (vport : Nat)
    (hport : cfg.udp_video_port = some vport) :
    sendVideoFrame cfg last now encodeOk payload sendOk =
      if 0 < cfg.video_fps ∧ now - last < 1 / cfg.video_fps then
        (last, VideoOutcome.rateLimited)
      else if encodeOk = false then
        (last, VideoOutcome.encodeFailed)
      else if 65000 < payload.length then
        (last, VideoOutcome.oversized)
      else if sendOk then
        (now, VideoOutcome.sent payload)
      else
        (last, VideoOutcome.sendFailed) := by
  unfold sendVideoFrame
  rw [hport]

/-- Helper: `applyDetect` never touches the mirror flag. -/
theorem applyDetect_mirror (st : TrackerState) (d : Detection) :
    (applyDetect st d).mirror_mode = st.mirror_mode := by
  unfold applyDetect
  split <;> rfl

/-- Helper: `fpsUpdate` never touches the mirror flag. -/
theorem fpsUpdate_mirror (st : TrackerState) (now : ℚ) :
    (fpsUpdate st now).mirror_mode = st.mirror_mode := by
  unfold fpsUpdate
  split <;> rfl

/-- Helper: with the window disabled, a successful frame read and a pending
key 109, one cycle negates the mirror flag. -/
theorem runCycle_toggles_mirror (cfg : TrackerConfig) (session : Engine)
    (dO : DrawOverlay) (st : TrackerState) (inp : CycleInput) (frame0 : Frame)
    (hw : cfg.show_window = false) (hf : inp.frameRead = some frame0)
    (hk : inp.key = 109) :
    (runCycle cfg session dO st inp).state.mirror_mode = !st.mirror_mode := by
  rw [runCycle_eq_cycleBody cfg session dO st inp frame0 hf]
  unfold cycleBody
  simp only [hw, hk, Bool.false_eq_true, if_false, reduceIte]
  simp [fpsUpdate_mirror, applyDetect_mirror]

/-- Helper: the maximum of a nonempty list is an element of the list. -/
theorem listMax_mem : ∀ (l : List ℚ), l ≠ [] → listMax l ∈ l
  | [], h => absurd rfl h
  | [v], _ => by simp [listMax]
  | v :: w :: rest, _ => by
    rcases le_total v (listMax (w :: rest)) with h1 | h1
    · have ih := listMax_mem (w :: rest) (by simp)
      simp only [listMax]
      rw [max_eq_right h1]
      exact List.mem_cons_of_mem _ ih
    · simp only [listMax]
      rw [max_eq_left h1]
      exact List.mem_cons_self _ _

/-- Helper: every element of a list is at most its maximum. -/
theorem le_listMax : ∀ (l : List ℚ) (x : ℚ), x ∈ l → x ≤ listMax l
  | [], x, hx => absurd hx (List.not_mem_nil x)
  | [v], x, hx => by
    simp only [List.mem_singleton] at hx
    simp [listMax, hx]
  | v :: w :: rest, x, hx => by
    simp only [listMax]
    rcases List.mem_cons.mp hx with h | h
    · exact h ▸ le_max_left _ _
    · exact le_trans (le_listMax (w :: rest) x h) (le_max_right _ _)

/-- Helper: length of the flattened landmark list. -/
theorem extract_landmarks_length (hand : List Landmark) :
    (extract_landmarks hand).length = 3 * hand.length := by
  induction hand with
  | nil => rfl
  | cons lm rest ih =>
    simp only [extract_landmarks, List.length_cons, ih]
    omega

/-- Helper: point-major then axis-minor ordering of the flattened list. -/
theorem extract_landmarks_getD (hand : List Landmark) (i : Nat) (h : i < hand.length) :
    (extract_landmarks hand).getD (3 * i) 0 = (hand.getD i ⟨0, 0, 0⟩).x ∧
    (extract_landmarks hand).getD (3 * i + 1) 0 = (hand.getD i ⟨0, 0, 0⟩).y ∧
    (extract_landmarks hand).getD (3 * i + 2) 0 = (hand.getD i ⟨0, 0, 0⟩).z := by
  induction hand generalizing i with
  | nil => simp at h
  | cons lm rest ih =>
    cases i with
    | zero => simp [extract_landmarks]
    | succ j =>
      have hj : j < rest.length := by
        simpa using h
      obtain ⟨ihx, ihy, ihz⟩ := ih j hj
      refine ⟨?_, ?_, ?_⟩
      · have e : 3 * (j + 1) = 3 * j + 1 + 1 + 1 := by ring
        rw [e]
        simpa [extract_landmarks] using ihx
      · have e : 3 * (j + 1) + 1 = 3 * j + 1 + 1 + 1 + 1 := by ring
        rw [e]
        simpa [extract_landmarks] using ihy
      · have e : 3 * (j + 1) + 2 = 3 * j + 2 + 1 + 1 + 1 := by ring
        rw [e]
        simpa [extract_landmarks] using ihz

/-- C1 (code bug): the claim and the spec say that with the debug display
enabled the externally signaled stop request (key q) and the mirror toggle
(key m) are polled once per cycle and take effect, and that with the display
disabled the toggles are unavailable.  The code has the branches reversed:
the `cv2.waitKey` polling and the q/m handlers sit in the `else` branch of
`if self.show_window:` (lines 461-472), so with the window shown a pending q
does not stop the loop and a pending m does not change the mirror flag,
while with the window disabled both keys do take effect — contradicting the
module docstring and the on-screen instructions the code itself draws. -/
theorem C1_keys_polled_only_without_window :
    (runCycle defaultConfig none dOverlayId stInit inpQ).stop = false ∧
    (runCycle defaultConfig none dOverlayId stInit inpM).state.mirror_mode
      = stInit.mirror_mode ∧
    (runCycle cfgNoShow none dOverlayId stInit inpQ).stop = true ∧
    (runCycle cfgNoShow none dOverlayId stInit inpM).state.mirror_mode
      = !stInit.mirror_mode := by
  refine ⟨?_, ?_, ?_, ?_⟩
  · rw [runCycle_eq_cycleBody defaultConfig none dOverlayId stInit inpQ frame1 rfl]
    simp [cycleBody, defaultConfig]
  · rw [runCycle_eq_cycleBody defaultConfig none dOverlayId stInit inpM frame1 rfl]
    simp [cycleBody, defaultConfig, fpsUpdate_mirror, applyDetect_mirror]
  · rw [runCycle_eq_cycleBody cfgNoShow none dOverlayId stInit inpQ frame1 rfl]
    simp [cycleBody, cfgNoShow, defaultConfig, inpQ]
  · exact runCycle_toggles_mirror cfgNoShow none dOverlayId stInit inpM frame1 rfl rfl rfl

/-- C2 counterexample: when the camera fails to open, `run` returns at
line 388, before the `try` block, so the teardown routine is never invoked
on that exit path and the already-acquired socket stays acquired — against
the claim that the teardown runs on every exit path including device-open
failure detected before entering Running. -/
theorem C2_no_cleanup_on_camera_open_failure :
    (run defaultConfig none dOverlayId false 0 []).cleanupCalled = false ∧
    (run defaultConfig none dOverlayId false 0 []).enteredRunning = false ∧
    (run defaultConfig none dOverlayId false 0 []).finalRes.sock = some true := by
  exact ⟨rfl, rfl, rfl⟩

/-- C2 (amended): on every exit path of the main loop after Running was
entered — normal stop via the stop key, external interrupt, or the while
condition going false — the single teardown routine is invoked and releases
whichever resources were successfully acquired, tolerating partial
initialization; device-open failure before entering Running exits without
invoking it. -/
theorem C2_cleanup_after_entering_loop (cfg : TrackerConfig) (session : Engine)
    (dO : DrawOverlay) (startTime : ℚ) (events : List CycleEvent)
    (h : (run cfg session dO true startTime events).exited = true) :
    (run cfg session dO true startTime events).cleanupCalled = true ∧
    (run cfg session dO true startTime events).finalRes =
      { cap := some false, hands := some false, sock := some false } ∧
    (run cfg session dO true startTime events).finalState.is_running = false ∧
    (∀ r : Resources, r.cap = none → (cleanup r).cap = none) ∧
    (∀ (r : Resources) (b : Bool), r.cap = some b → (cleanup r).cap = some false) ∧
    (∀ (r : Resources) (b : Bool), r.hands = some b → (cleanup r).hands = some false) ∧
    (∀ (r : Resources) (b : Bool), r.sock = some b → (cleanup r).sock = some false) := by
  unfold run at h ⊢
  simp only [Bool.true_eq_false, if_false] at h ⊢
  refine ⟨h, ?_, ?_, ?_, ?_, ?_, ?_⟩
  · simp [h, cleanup, initResources]
  · simp [h]
  · intro r hr
    simp [cleanup, hr]
  · intro r b hr
    simp [cleanup, hr]
  · intro r b hr
    simp [cleanup, hr]
  · intro r b hr
    simp [cleanup, hr]

/-- C2 witness: a run that enters the loop and is stopped by an external
interrupt calls the teardown routine. -/
theorem C2_cleanup_witness :
    (run defaultConfig none dOverlayId true 0 [CycleEvent.interrupt]).exited = true ∧
    (run defaultConfig none dOverlayId true 0 [CycleEvent.interrupt]).cleanupCalled = true :=
  ⟨rfl, (C2_cleanup_after_entering_loop defaultConfig none dOverlayId 0
    [CycleEvent.interrupt] rfl).1⟩

/-- C3 counterexample: the claim says the transmitter owns two independent
datagram sockets so that telemetry and preview sends each go through their
own distinct socket.  The code creates exactly one socket in `_init_socket`
and both `send_to_unity` (line 282) and `_send_video_frame_to_unity`
(line 316) send through that same `self.sock`: with the default
configuration the preview route uses the same socket handle as the
telemetry route. -/
theorem C3_single_socket_counterexample :
    socketsCreated.length = 1 ∧
    (previewRoute defaultConfig).map Datagram.sock
      = some (telemetryRoute defaultConfig).sock := by
  exact ⟨rfl, rfl⟩

/-- C3 (amended): the transmitter owns a single unreliable datagram socket
shared by both channels; every telemetry send is addressed to
(udp_ip, udp_port) and every preview send to (udp_ip, udp_video_port), so
the channels are distinguished by destination port, not by socket. -/
theorem C3_single_socket_both_channels (cfg : TrackerConfig) (vport : Nat)
    (h : cfg.udp_video_port = some vport) :
    (telemetryRoute cfg).sock = theSock ∧
    previewRoute cfg = some { sock := theSock, ip := cfg.udp_ip, port := vport } ∧
    (telemetryRoute cfg).port = cfg.udp_port ∧
    (telemetryRoute cfg).ip = cfg.udp_ip ∧
    socketsCreated = [theSock] := by
  refine ⟨rfl, ?_, rfl, rfl, rfl⟩
  simp [previewRoute, h]

/-- C3 witness: the amended statement at the default configuration. -/
theorem C3_witness :
    previewRoute defaultConfig
      = some { sock := theSock, ip := defaultConfig.udp_ip, port := 5006 } :=
  (C3_single_socket_both_channels defaultConfig 5006 rfl).2.1

/-- C4: in every telemetry message, when a hand is detected the landmarks
field has exactly 63 entries in point-major then axis-minor order
(x0, y0, z0, x1, ...) derived from the 21 extracted points; when no hand is
detected the landmarks field is present and empty — never partial. -/
theorem C4_telemetry_landmarks_shape (session : Engine) (hand : List Landmark)
    (now : ℚ) (h : hand.length = 21) :
    (send_to_unity (detect session (some hand)).landmarks
      (detect session (some hand)).letter (detect session (some hand)).confidence
      (detect session (some hand)).hand_detected now).landmarks.length = 63 ∧
    (∀ i, i < 21 →
      (send_to_unity (detect session (some hand)).landmarks
        (detect session (some hand)).letter (detect session (some hand)).confidence
        (detect session (some hand)).hand_detected now).landmarks.getD (3 * i) 0
          = (hand.getD i ⟨0, 0, 0⟩).x ∧
      (send_to_unity (detect session (some hand)).landmarks
        (detect session (some hand)).letter (detect session (some hand)).confidence
        (detect session (some hand)).hand_detected now).landmarks.getD (3 * i + 1) 0
          = (hand.getD i ⟨0, 0, 0⟩).y ∧
      (send_to_unity (detect session (some hand)).landmarks
        (detect session (some hand)).letter (detect session (some hand)).confidence
        (detect session (some hand)).hand_detected now).landmarks.getD (3 * i + 2) 0
          = (hand.getD i ⟨0, 0, 0⟩).z) ∧
    (∀ (s : Engine) (t : ℚ),
      (send_to_unity (detect s none).landmarks (detect s none).letter
        (detect s none).confidence (detect s none).hand_detected t).landmarks = []) := by
  have hd : (detect session (some hand)).hand_detected = true := by
    simp [detect]
  have hl : (detect session (some hand)).landmarks = extract_landmarks hand := by
    simp [detect]
  have hmsg : (send_to_unity (detect session (some hand)).landmarks
      (detect session (some hand)).letter (detect session (some hand)).confidence
      (detect session (some hand)).hand_detected now).landmarks
      = extract_landmarks hand := by
    simp [send_to_unity, hd, hl]
  refine ⟨?_, ?_, ?_⟩
  · rw [hmsg, extract_landmarks_length, h]
  · intro i hi
    rw [hmsg]
    exact extract_landmarks_getD hand i (by omega)
  · intro s t
    simp [send_to_unity, detect]

/-- C4 witness: a concrete 21-point hand yields a 63-entry landmarks field. -/
theorem C4_witness :
    (List.replicate 21 (⟨0, 0, 0⟩ : Landmark)).length = 21 ∧
    (send_to_unity (detect none (some (List.replicate 21 ⟨0, 0, 0⟩))).landmarks
      (detect none (some (List.replicate 21 ⟨0, 0, 0⟩))).letter
      (detect none (some (List.replicate 21 ⟨0, 0, 0⟩))).confidence
      (detect none (some (List.replicate 21 ⟨0, 0, 0⟩))).hand_detected 0).landmarks.length
      = 63 :=
  ⟨rfl, (C4_telemetry_landmarks_shape none (List.replicate 21 ⟨0, 0, 0⟩) 0 rfl).1⟩

/-- C5: for every cycle with the preview channel configured, when the
configured preview fps F is positive a preview send is performed only if
the elapsed time since the last successful preview send is at least 1/F,
the last-send timestamp being advanced exactly when a send succeeds; when
F is not positive the rate gate never blocks, so every cycle attempts a
preview send. -/
theorem C5_preview_rate_limiter (cfg : TrackerConfig) (last now : ℚ)
    (encodeOk : Bool) (payload : List Nat) (sendOk : Bool) (vport : Nat)
    (hport : cfg.udp_video_port = some vport) :
    (∀ p, (sendVideoFrame cfg last now encodeOk payload sendOk).2 = VideoOutcome.sent p →
      cfg.video_fps ≤ 0 ∨ 1 / cfg.video_fps ≤ now - last) ∧
    (0 < cfg.video_fps → now - last < 1 / cfg.video_fps →
      sendVideoFrame cfg last now encodeOk payload sendOk
        = (last, VideoOutcome.rateLimited)) ∧
    (cfg.video_fps ≤ 0 →
      (sendVideoFrame cfg last now encodeOk payload sendOk).2
        ≠ VideoOutcome.rateLimited) ∧
    (∀ p, (sendVideoFrame cfg last now encodeOk payload sendOk).2 = VideoOutcome.sent p →
      (sendVideoFrame cfg last now encodeOk payload sendOk).1 = now) ∧
    ((∀ p, (sendVideoFrame cfg last now encodeOk payload sendOk).2
        ≠ VideoOutcome.sent p) →
      (sendVideoFrame cfg last now encodeOk payload sendOk).1 = last) := by
  rw [sendVideoFrame_some cfg last now encodeOk payload sendOk vport hport]
  by_cases hg : 0 < cfg.video_fps ∧ now - last < 1 / cfg.video_fps
  · rw [if_pos hg]
    refine ⟨?_, ?_, ?_, ?_, ?_⟩
    · intro p hp
      exact absurd hp (by simp)
    · intro h1 h2
      rfl
    · intro hle
      exact absurd hg.1 (not_lt.mpr hle)
    · intro p hp
      exact absurd hp (by simp)
    · intro _
      rfl
  · rw [if_neg hg]
    have hordisj : cfg.video_fps ≤ 0 ∨ 1 / cfg.video_fps ≤ now - last := by
      rcases not_and_or.mp hg with h1 | h1
      · exact Or.inl (not_lt.mp h1)
      · exact Or.inr (not_lt.mp h1)
    by_cases he : encodeOk = false
    · rw [if_pos he]
      exact ⟨fun p hp => absurd hp (by simp), fun h1 h2 => absurd ⟨h1, h2⟩ hg,
        fun _ => by simp, fun p hp => absurd hp (by simp), fun _ => rfl⟩
    · rw [if_neg he]
      by_cases ho : 65000 < payload.length
      · rw [if_pos ho]
        exact ⟨fun p hp => absurd hp (by simp), fun h1 h2 => absurd ⟨h1, h2⟩ hg,
          fun _ => by simp, fun p hp => absurd hp (by simp), fun _ => rfl⟩
      · rw [if_neg ho]
        by_cases hs : sendOk = true
        · rw [if_pos hs]
          exact ⟨fun p hp => hordisj, fun h1 h2 => absurd ⟨h1, h2⟩ hg,
            fun _ => by simp, fun p hp => rfl, fun hnp => absurd rfl (hnp payload)⟩
        · rw [if_neg hs]
          exact ⟨fun p hp => absurd hp (by simp), fun h1 h2 => absurd ⟨h1, h2⟩ hg,
            fun _ => by simp, fun p hp => absurd hp (by simp), fun _ => rfl⟩

/-- C5 witness: with the default 10 fps, a cycle one second after the last
successful send passes the gate and advances the timestamp. -/
theorem C5_witness :
    defaultConfig.udp_video_port = some 5006 ∧
    (sendVideoFrame defaultConfig 0 1 true [0] true).1 = 1 := by
  refine ⟨rfl, ?_⟩
  refine (C5_preview_rate_limiter defaultConfig 0 1 true [0] true 5006 rfl).2.2.2.1 [0] ?_
  rw [sendVideoFrame_some defaultConfig 0 1 true [0] true 5006 rfl]
  norm_num [defaultConfig]

/-- C6: every transmitted preview datagram has payload length at most 65000
bytes; when the compressed payload exceeds 65000 bytes the preview is
silently skipped for that cycle — outcome `oversized`, timestamp unchanged —
rather than truncated, fragmented, or raised as an error. -/
theorem C6_preview_size_bound (cfg : TrackerConfig) (last now : ℚ)
    (encodeOk : Bool) (payload : List Nat) (sendOk : Bool) :
    (∀ p, (sendVideoFrame cfg last now encodeOk payload sendOk).2 = VideoOutcome.sent p →
      p.length ≤ 65000) ∧
    (65000 < payload.length →
      (∀ p, (sendVideoFrame cfg last now encodeOk payload sendOk).2
        ≠ VideoOutcome.sent p) ∧
      (sendVideoFrame cfg last now encodeOk payload sendOk).1 = last) ∧
    (∀ vport, cfg.udp_video_port = some vport →
      ¬(0 < cfg.video_fps ∧ now - last < 1 / cfg.video_fps) →
      encodeOk = true → 65000 < payload.length →
      sendVideoFrame cfg last now encodeOk payload sendOk
        = (last, VideoOutcome.oversized)) := by
  cases hport : cfg.udp_video_port with
  | none =>
    have hnone : sendVideoFrame cfg last now encodeOk payload sendOk
        = (last, VideoOutcome.disabled) := by
      unfold sendVideoFrame
      rw [hport]
    rw [hnone]
    refine ⟨?_, ?_, ?_⟩
    · intro p hp
      exact absurd hp (by simp)
    · intro _
      exact ⟨fun p hp => absurd hp (by simp), rfl⟩
    · intro vport hv
      exact absurd hv (by simp)
  | some v =>
    rw [sendVideoFrame_some cfg last now encodeOk payload sendOk v hport]
    by_cases hg : 0 < cfg.video_fps ∧ now - last < 1 / cfg.video_fps
    · rw [if_pos hg]
      refine ⟨fun p hp => absurd hp (by simp), fun _ =>
        ⟨fun p hp => absurd hp (by simp), rfl⟩, ?_⟩
      intro vport hv hg2 he ho
      exact absurd hg hg2
    · rw [if_neg hg]
      by_cases he : encodeOk = false
      · rw [if_pos he]
        refine ⟨fun p hp => absurd hp (by simp), fun _ =>
          ⟨fun p hp => absurd hp (by simp), rfl⟩, ?_⟩
        intro vport hv hg2 he2 ho
        rw [he2] at he
        exact absurd he (by simp)
      · rw [if_neg he]
        by_cases ho : 65000 < payload.length
        · rw [if_pos ho]
          exact ⟨fun p hp => absurd hp (by simp), fun _ =>
            ⟨fun p hp => absurd hp (by simp), rfl⟩, fun vport hv hg2 he2 ho2 => rfl⟩
        · rw [if_neg ho]
          by_cases hs : sendOk = true
          · rw [if_pos hs]
            refine ⟨?_, fun ho2 => absurd ho2 ho, fun vport hv hg2 he2 ho2 => absurd ho2 ho⟩
            intro p hp
            have hpp : payload = p := by
              simpa using hp
            rw [← hpp]
            exact not_lt.mp ho
          · rw [if_neg hs]
            exact ⟨fun p hp => absurd hp (by simp), fun _ =>
              ⟨fun p hp => absurd hp (by simp), rfl⟩, fun vport hv hg2 he2 ho2 => absurd ho2 ho⟩

/-- C6 witness: a 65001-byte payload is skipped with the timestamp left
unchanged. -/
theorem C6_witness :
    (sendVideoFrame defaultConfig 0 1 true (List.replicate 65001 0) true).1 = 0 :=
  ((C6_preview_size_bound defaultConfig 0 1 true (List.replicate 65001 0) true).2.1
    (by rw [List.length_replicate]; omega)).2

/-- C7: the classifier adapter never raises past its boundary — when the
inference engine is unavailable (failed to load at startup) or throws
during execution, `predict_letter` returns the unknown sentinel with
confidence 0.0, and a cycle whose frame read succeeded still produces a
telemetry message to send, whatever the session. -/
theorem C7_classifier_fails_closed (cfg : TrackerConfig) (session : Engine)
    (dO : DrawOverlay) (st : TrackerState) (inp : CycleInput) (frame : Frame)
    (f : List ℚ → Except String EngineOutput) (lms : List ℚ) (e : String)
    (hf : inp.frameRead = some frame) (hfe : f lms = Except.error e) :
    predict_letter none lms = ("?", 0) ∧
    predict_letter (some f) lms = ("?", 0) ∧
    ((runCycle cfg session dO st inp).telemetry).isSome = true := by
  refine ⟨rfl, ?_, ?_⟩
  · simp [predict_letter, hfe]
  · rw [runCycle_eq_cycleBody cfg session dO st inp frame hf]
    unfold cycleBody
    by_cases hw : cfg.show_window = true
    · simp [hw]
    · by_cases hk1 : inp.key = 113
      · simp [hw, hk1]
      · by_cases hk2 : inp.key = 109
        · simp [hw, hk1, hk2]
        · simp [hw, hk1, hk2]

/-- C7 witness: an engine that raises yields the sentinel, and the concrete
cycle with no loaded model still produces a telemetry message. -/
theorem C7_witness :
    predict_letter none [] = ("?", (0 : ℚ)) ∧
    predict_letter (some failEngine) [] = ("?", 0) ∧
    ((runCycle defaultConfig none dOverlayId stInit inpQ).telemetry).isSome = true :=
  C7_classifier_fails_closed defaultConfig none dOverlayId stInit inpQ frame1
    failEngine [] "boom" rfl rfl

/-- C8: the mirror transform is the deterministic horizontal flip and it is
an involution — flipping a frame twice restores it; moreover, with the
window disabled, a cycle with a pending key 109 negates the mirror flag, so
two such cycles restore the original mirror mode. -/
theorem C8_mirror_involution (cfg : TrackerConfig) (session : Engine)
    (dO : DrawOverlay) (st : TrackerState) (inp : CycleInput) (frame0 : Frame)
    (hw : cfg.show_window = false) (hf : inp.frameRead = some frame0)
    (hk : inp.key = 109) :
    (∀ f : Frame, flipHorizontal (flipHorizontal f) = f) ∧
    (st.mirror_mode = true → mirroredFrame st frame0 = flipHorizontal frame0) ∧
    (st.mirror_mode = false → mirroredFrame st frame0 = frame0) ∧
    (runCycle cfg session dO st inp).state.mirror_mode = !st.mirror_mode ∧
    (runCycle cfg session dO ((runCycle cfg session dO st inp).state) inp).state.mirror_mode
      = st.mirror_mode := by
  refine ⟨?_, ?_, ?_, ?_, ?_⟩
  · intro f
    simp [flipHorizontal, List.map_map, Function.comp, List.reverse_reverse]
  · intro hm
    simp [mirroredFrame, hm]
  · intro hm
    simp [mirroredFrame, hm]
  · exact runCycle_toggles_mirror cfg session dO st inp frame0 hw hf hk
  · rw [runCycle_toggles_mirror cfg session dO _ inp frame0 hw hf hk,
      runCycle_toggles_mirror cfg session dO st inp frame0 hw hf hk,
      Bool.not_not]

/-- C8 witness: the involution and the double toggle at a concrete frame and
state. -/
theorem C8_witness :
    flipHorizontal (flipHorizontal frame1) = frame1 ∧
    (runCycle cfgNoShow none dOverlayId
      ((runCycle cfgNoShow none dOverlayId stInit inpM).state) inpM).state.mirror_mode
      = stInit.mirror_mode :=
  ⟨(C8_mirror_involution cfgNoShow none dOverlayId stInit inpM frame1 rfl rfl rfl).1 frame1,
   (C8_mirror_involution cfgNoShow none dOverlayId stInit inpM frame1 rfl rfl rfl).2.2.2.2⟩

/-- C9: in a successful prediction the returned confidence is the maximum of
the probability dict values when the dict is nonempty, 0.0 when the dict is
empty, and 1.0 when the probability output is present but not a dict or
absent entirely. -/
theorem C9_confidence_computation (f : List ℚ → Except String EngineOutput)
    (lms : List ℚ) (out : EngineOutput) (h : f lms = Except.ok out) :
    predict_letter (some f) lms = (out.label, confidenceOf out.probs) ∧
    confidenceOf none = 1 ∧
    confidenceOf (some ProbOutput.nonDict) = 1 ∧
    confidenceOf (some (ProbOutput.dict [])) = 0 ∧
    (∀ d : List (String × ℚ), d ≠ [] →
      confidenceOf (some (ProbOutput.dict d)) = listMax (d.map Prod.snd) ∧
      listMax (d.map Prod.snd) ∈ d.map Prod.snd ∧
      (∀ v ∈ d.map Prod.snd, v ≤ listMax (d.map Prod.snd))) := by
  refine ⟨?_, rfl, rfl, rfl, ?_⟩
  · simp [predict_letter, h]
  · intro d hd
    refine ⟨?_, ?_, ?_⟩
    · simp [confidenceOf, List.isEmpty_iff, hd]
    · exact listMax_mem (d.map Prod.snd) (by simpa using hd)
    · intro v hv
      exact le_listMax (d.map Prod.snd) v hv

/-- C9 witness: a successful prediction with a one-entry probability dict
returns its maximum value as the confidence. -/
theorem C9_witness :
    confidenceOf (some (ProbOutput.dict [("A", 92/100)]))
      = listMax ([("A", (92 : ℚ)/100)].map Prod.snd) :=
  ((C9_confidence_computation okEngine []
    { label := "A", probs := some (ProbOutput.dict [("A", 92/100)]) } rfl).2.2.2.2
    [("A", 92/100)] (by simp)).1

/-- C10: when the debug window is enabled, the frame handed to the preview
encoder each cycle is the overlay-annotated display frame built by
`draw_overlay` from the processed frame, the drawn landmarks, the letter,
the confidence and the FPS; only when the debug window is disabled is the
raw (possibly mirrored) camera frame streamed on the preview channel. -/
theorem C10_preview_frame_selection (cfg : TrackerConfig) (session : Engine)
    (dO : DrawOverlay) (st : TrackerState) (inp : CycleInput) (frame0 : Frame)
    (hf : inp.frameRead = some frame0) :
    (cfg.show_window = true →
      (runCycle cfg session dO st inp).previewFrame =
        some (dO (mirroredFrame st frame0) (detect session inp.handResult).draw
          (detect session inp.handResult).letter
          (detect session inp.handResult).confidence
          (fpsUpdate (applyDetect st (detect session inp.handResult)) inp.now_fps).fps)) ∧
    (cfg.show_window = false →
      (runCycle cfg session dO st inp).previewFrame = some (mirroredFrame st frame0)) := by
  rw [runCycle_eq_cycleBody cfg session dO st inp frame0 hf]
  unfold cycleBody
  constructor
  · intro hw
    simp [hw]
  · intro hw
    by_cases hk1 : inp.key = 113
    · simp [hw, hk1]
    · by_cases hk2 : inp.key = 109
      · simp [hw, hk1, hk2]
      · simp [hw, hk1, hk2]

/-- C10 witness: with the default configuration (window enabled) the preview
frame is the overlay-produced frame; with the window disabled it is the
mirrored raw frame. -/
theorem C10_witness :
    (runCycle defaultConfig none dOverlayId stInit inpQ).previewFrame =
      some (dOverlayId (mirroredFrame stInit frame1) (detect none inpQ.handResult).draw
        (detect none inpQ.handResult).letter (detect none inpQ.handResult).confidence
        (fpsUpdate (applyDetect stInit (detect none inpQ.handResult)) inpQ.now_fps).fps) :=
  (C10_preview_frame_selection defaultConfig none dOverlayId stInit inpQ frame1 rfl).1 rfl
